import Mathlib

/-!
Verification of the thungthung-pi reverse-vending kiosk against its
natural-language specification.

The Python source is shallowly embedded: each sensor / actuator routine
becomes a pure Lean function over an explicit description of its
environment (echo timings, sensor outcomes, cloud responses), and the
Flask session handlers become state-transformer functions on an explicit
state record, returning the new state together with a trace of side
effects.  Machine floats that only ever hold exact decimal sensor values
are modelled as rationals.
-/

namespace Kiosk

/-- The closed label set of the specification: {Plastic, Can, Other}. -/
inductive Label where
  | Plastic
  | Can
  | Other
deriving DecidableEq, Repr

/-- Modelled from the spec: the SensorFusionEngine `fuse` belongs to the
richer application variant (spec section 9), whose top-level file is not
under src/ (only its components, CameraManager and HardwareManager, are).
The definition follows the ordered rule table of spec section 4.3:
overweight rejection first, then the can/metal demotion, then the two
metal upgrades, else the raw label unchanged. -/
def fuse (weight_before : ℚ) (metal_detected : Bool) (raw_label : Label)
    (weight_limit : ℚ) : Label :=
  if weight_before > weight_limit then Label.Other
  else if raw_label = Label.Can ∧ metal_detected = false then Label.Other
  else if raw_label = Label.Plastic ∧ metal_detected = true then Label.Can
  else if raw_label = Label.Other ∧ metal_detected = true then Label.Can
  else raw_label

/-!
Embedding of src/hardware/hardware_manager.py (class HardwareManager).
Configuration constants are those of its `__init__`.
-/

def BIN_HEIGHT_CM : ℚ := 30
def BIN_FULL_THRESHOLD : ℚ := 80

def SERVO_SORTER_CH : ℕ := 15
def SERVO_SLAPPER_CH : ℕ := 0
def ANGLE_IDLE : ℕ := 60
def ANGLE_PLASTIC : ℕ := 95
def ANGLE_CAN : ℕ := 25
def ANGLE_SLAP_REST : ℕ := 65
def ANGLE_SLAP_HIT : ℕ := 160

/-- Python `int()` on a rational: truncation toward zero. -/
def pyInt (q : ℚ) : ℤ := if 0 ≤ q then ⌊q⌋ else ⌈q⌉

/-- The dict returned by `get_bin_level`.  The Python dict does not always
carry an `error` key, so that field is an `Option`: `none` models the key
being absent. -/
structure BinReading where
  percent : ℤ
  is_full : Bool
  error : Option Bool
deriving DecidableEq, Repr

/-- How one ultrasonic measurement attempt resolves: the echo wait for the
rising edge times out, the wait for the falling edge times out, an echo of
some duration (seconds) is observed, or an exception is raised somewhere in
the pulse/echo protocol. -/
inductive EchoOutcome where
  | riseTimeout
  | fallTimeout
  | echo (duration : ℚ)
  | fault
deriving DecidableEq, Repr

/-- The fill-percentage arithmetic of `get_bin_level` (lines 150-157):
distance = duration * 17150, clamped into [0, BIN_HEIGHT_CM], then
converted to a percentage of the bin height. -/
def fillPercent (duration : ℚ) : ℚ :=
  let distance := duration * 17150
  let valid_dist := max 0 (min distance BIN_HEIGHT_CM)
  let fill_amount := BIN_HEIGHT_CM - valid_dist
  fill_amount / BIN_HEIGHT_CM * 100

/-- `HardwareManager.get_bin_level`.  Both timeout checks return
`{"percent": 0, "is_full": False, "error": True}`; the catch-all exception
handler returns `{"percent": 0, "is_full": False}` with no `error` key; the
success path returns the truncated percentage and compares the raw (float)
percentage against the threshold, again with no `error` key. -/
def get_bin_level (m : EchoOutcome) : BinReading :=
  match m with
  | .riseTimeout => ⟨0, false, some true⟩
  | .fallTimeout => ⟨0, false, some true⟩
  | .fault => ⟨0, false, none⟩
  | .echo duration =>
      ⟨pyInt (fillPercent duration),
       decide (BIN_FULL_THRESHOLD ≤ fillPercent duration), none⟩

/-- How a weight read resolves: the HX711 driver object is `None`
(initialization failed), `get_weight(5)` raises, or it returns a value. -/
inductive WeightOutcome where
  | noSensor
  | fault
  | reading (val : ℚ)
deriving DecidableEq, Repr

/-- `HardwareManager.get_weight`: values at or below 0.5 g collapse to 0.0,
and a missing or faulting sensor fails open to 0.0. -/
def get_weight (o : WeightOutcome) : ℚ :=
  match o with
  | .noSensor => 0
  | .fault => 0
  | .reading val => if val > 0.5 then val else 0

/-- A servo command issued by the actuation sequence: set a channel's angle
(`none` releases holding torque) or sleep for a duration in seconds. -/
inductive ServoCmd where
  | setAngle (channel : ℕ) (angle : Option ℕ)
  | wait (seconds : ℚ)
deriving DecidableEq, Repr

/-- `HardwareManager.run_motor_sequence` as the trace of servo commands it
issues.  It returns immediately (empty trace) when the label is Other or
the servo driver (`self.kit`) is unavailable. -/
def run_motor_sequence (label : String) (kitAvailable : Bool) : List ServoCmd :=
  if label = "Other" ∨ kitAvailable = false then []
  else
    let target := if label = "Plastic" then ANGLE_PLASTIC else ANGLE_CAN
    [ ServoCmd.setAngle SERVO_SORTER_CH (some target), ServoCmd.wait (1/2),
      ServoCmd.setAngle SERVO_SLAPPER_CH (some ANGLE_SLAP_HIT), ServoCmd.wait (3/5),
      ServoCmd.setAngle SERVO_SLAPPER_CH (some ANGLE_SLAP_REST), ServoCmd.wait (2/5),
      ServoCmd.setAngle SERVO_SORTER_CH (some ANGLE_IDLE), ServoCmd.wait (1/2),
      ServoCmd.setAngle SERVO_SORTER_CH none,
      ServoCmd.setAngle SERVO_SLAPPER_CH none ]

/-!
Embedding of src/ai/camera_manager.py (class CameraManager).
-/

/-- An owned image buffer; its contents are irrelevant to the properties
proved here, only its presence or absence. -/
structure Frame where
  pixels : List ℕ
deriving DecidableEq, Repr

/-- How one invocation of the TFLite interpreter on a frame resolves:
a score vector, or an exception somewhere in preprocessing or inference. -/
inductive InferResult where
  | ok (probs : List ℚ)
  | exn
deriving DecidableEq, Repr

/-- `np.argmax` on a score vector: index of the first maximal entry
(0 on an empty vector). -/
def argmaxAux : List ℚ → ℕ → ℕ → ℚ → ℕ
  | [], _, best, _ => best
  | x :: xs, i, best, bestVal =>
      if x > bestVal then argmaxAux xs (i + 1) i x
      else argmaxAux xs (i + 1) best bestVal

def argmax : List ℚ → ℕ
  | [] => 0
  | x :: xs => argmaxAux xs 1 0 x

/-- `CameraManager.predict`: returns the string "Error" when the
interpreter failed to load or the frame is `None`; otherwise maps the
argmax index through the fixed table 0 = Can, 2 = Plastic, rest = Other,
and any exception during preprocessing or inference yields "Other". -/
def predict (interpreterLoaded : Bool) (frame : Option Frame)
    (infer : Frame → InferResult) : String :=
  if interpreterLoaded = false ∨ frame = none then "Error"
  else
    match frame with
    | none => "Error"
    | some f =>
        match infer f with
        | .exn => "Other"
        | .ok probs =>
            let pred_idx := argmax probs
            if pred_idx = 0 then "Can"
            else if pred_idx = 2 then "Plastic"
            else "Other"

/-- State owned by `CameraManager`: the running flag, the capture device
(`none` when not held; the payload is the device index, where the code
tries 0, 1, -1), and the latest-frame slot. -/
structure CamState where
  running : Bool
  cap : Option ℤ
  latest_frame : Option Frame
deriving DecidableEq, Repr

/-- Observable camera side effects: attempting to open a device index,
and spawning the background acquisition loop thread. -/
inductive CamEffect where
  | tryOpen (idx : ℤ)
  | spawnLoop
deriving DecidableEq, Repr

/-- The index-probing loop of `CameraManager.start_camera`: tries each
index in order; the first that opens is kept, the running flag is set and
the acquisition loop is spawned. -/
def cm_try_indices (avail : ℤ → Bool) (s : CamState) :
    List ℤ → Bool × CamState × List CamEffect
  | [] => (false, s, [])
  | idx :: rest =>
      if avail idx then
        (true, { s with cap := some idx, running := true },
         [CamEffect.tryOpen idx, CamEffect.spawnLoop])
      else
        let r := cm_try_indices avail s rest
        (r.1, r.2.1, CamEffect.tryOpen idx :: r.2.2)

/-- `CameraManager.start_camera`: returns True immediately (no device
probe, no second loop) when already running with a held device, else
probes indices 0, 1, -1. -/
def cm_start_camera (avail : ℤ → Bool) (s : CamState) :
    Bool × CamState × List CamEffect :=
  if s.running = true ∧ s.cap.isSome = true then (true, s, [])
  else cm_try_indices avail s [0, 1, -1]

/-!
Embedding of the session handlers of src/app.py (the simpler application
variant present under src/): the global state dict plus camera globals,
and the start / scan actions as state-transformer functions.
-/

/-- The `state` dict of app.py together with the camera globals
`camera_running`, `global_cap` and `latest_frame`. -/
structure AppState where
  status : String
  transaction_id : Option String
  claim_secret : Option String
  plastic : ℕ
  cans : ℕ
  last_item : String
  camera_running : Bool
  global_cap : Option ℕ
  latest_frame : Option Frame
deriving DecidableEq, Repr

/-- Observable side effects of the app.py handlers. -/
inductive AppEffect where
  | tryOpen (idx : ℕ)
  | spawnLoop
  | cloudPost
deriving DecidableEq, Repr

/-- The index-probing loop of app.py `start_camera` (indices 0, 1, 2; a
device is kept only when it opens and its first test read succeeds, both
folded into `avail`). -/
def app_try_indices (avail : ℕ → Bool) (s : AppState) :
    List ℕ → AppState × List AppEffect
  | [] => (s, [])
  | idx :: rest =>
      if avail idx then
        ({ s with global_cap := some idx, camera_running := true },
         [AppEffect.tryOpen idx, AppEffect.spawnLoop])
      else
        let r := app_try_indices avail s rest
        (r.1, AppEffect.tryOpen idx :: r.2)

/-- app.py `start_camera`: returns immediately when `camera_running` is
already set — no device is probed and no second loop is spawned. -/
def start_camera (avail : ℕ → Bool) (s : AppState) : AppState × List AppEffect :=
  if s.camera_running = true then (s, [])
  else app_try_indices avail s [0, 1, 2]

/-- Outcome of the cloud POST in app.py `start`: a network error or
malformed JSON (an exception), or a parsed response body. -/
inductive CloudResp where
  | netFail
  | response (success : Bool) (txnId : String) (claimSecret : String)
deriving DecidableEq, Repr

/-- app.py `start` handler: resets the two counters and last_item,
starts the camera, posts to the cloud; only a successful cloud response
moves the session to RUNNING and installs the server-issued identifiers —
any failure leaves the status and identifiers as they were and reports
failure. -/
def app_start (avail : ℕ → Bool) (cloud : CloudResp) (s : AppState) :
    AppState × Bool × List AppEffect :=
  let s1 := { s with plastic := 0, cans := 0, last_item := "Ready" }
  let p := start_camera avail s1
  let eff := p.2 ++ [AppEffect.cloudPost]
  match cloud with
  | .netFail => (p.1, false, eff)
  | .response ok txn sec =>
      if ok then
        ({ p.1 with
           status := "RUNNING"
           transaction_id := some txn
           claim_secret := some sec }, true, eff)
      else (p.1, false, eff)

/-- app.py `scan` handler.  `pred` is how `predict_image` resolves on the
captured frame: an exception message or a label string.  The handler
refuses when not RUNNING, aborts before any mutation when no frame is in
the latest-frame slot, and otherwise records the label and bumps the
matching counter. -/
def app_scan (pred : Except String String) (s : AppState) :
    AppState × Except String String :=
  if s.status ≠ "RUNNING" then (s, Except.error "IDLE")
  else
    match s.latest_frame with
    | none => (s, Except.error "No frame")
    | some _ =>
        match pred with
        | Except.error e => (s, Except.error e)
        | Except.ok label =>
            let s1 := { s with last_item := label }
            if label = "Plastic" then
              ({ s1 with plastic := s1.plastic + 1 }, Except.ok label)
            else
              ({ s1 with cans := s1.cans + 1 }, Except.ok label)

/-!
The richer application variant described by the spec (its section 9 notes
two near-identical top-level variants; the richer one, which wires
CameraManager and HardwareManager into the 4-rule fusion engine, is not
under src/, only its two component classes are).  Its session start is
modelled from the spec.
-/

/-- Session state of the richer variant, per spec section 3. -/
structure Session where
  status : String
  plastic_count : ℕ
  can_count : ℕ
  other_count : ℕ
  total_weight : ℚ
  last_item : String
  last_weight : ℚ
  transaction_id : Option String
  claim_secret : Option String
deriving DecidableEq, Repr

/-- Observable side effects of the richer variant's start. -/
inductive SessionEffect where
  | startFrameSource
  | tare
  | cloudNotifyStart
deriving DecidableEq, Repr

/-- Outcome of the collaborator notifyStart call: identifiers, or a
network error / unsuccessful response. -/
inductive CloudStart where
  | ok (txn : String) (secret : String)
  | unreachable
deriving DecidableEq, Repr

/-- Modelled from the spec: the `start` action of the richer application
variant's SessionStateMachine is not under src/.  Per spec sections 4.6
and 7: refused outright (no state change, no effects) when the latest
BinReading is full; otherwise resets counters and total weight, starts
FrameSource, tares the scale, takes the cloud-issued transaction
identifier and claim secret or locally generated fallbacks when the cloud
is unreachable, and sets status RUNNING. -/
def session_start (bin : BinReading) (cloud : CloudStart)
    (localTxn localSecret : String) (s : Session) :
    Session × Bool × List SessionEffect :=
  if bin.is_full = true then (s, false, [])
  else
    let s1 := { s with
                plastic_count := 0
                can_count := 0
                other_count := 0
                total_weight := 0 }
    let ids := match cloud with
      | .ok txn sec => (txn, sec)
      | .unreachable => (localTxn, localSecret)
    ({ s1 with
       status := "RUNNING"
       transaction_id := some ids.1
       claim_secret := some ids.2 }, true,
     [SessionEffect.startFrameSource, SessionEffect.tare,
      SessionEffect.cloudNotifyStart])

end Kiosk

namespace Kiosk

lemma fillPercent_nonneg (d : ℚ) : 0 ≤ fillPercent d := by
  unfold fillPercent BIN_HEIGHT_CM
  have h : min (d * 17150) 30 ≤ 30 := min_le_right _ _
  have h2 : max 0 (min (d * 17150) 30) ≤ 30 := max_le (by norm_num) h
  have h3 : (0:ℚ) ≤ 30 - max 0 (min (d * 17150) 30) := by linarith
  exact mul_nonneg (div_nonneg h3 (by norm_num)) (by norm_num)

lemma fillPercent_le_100 (d : ℚ) : fillPercent d ≤ 100 := by
  unfold fillPercent BIN_HEIGHT_CM
  have h : (0:ℚ) ≤ max 0 (min (d * 17150) 30) := le_max_left _ _
  have : (30 - max 0 (min (d * 17150) 30)) / 30 ≤ 1 := by
    rw [div_le_one (by norm_num)]
    linarith
  nlinarith [this]

/-- C1: with the default weight limit 50.0 g, `fuse` rejects every
overweight item as Other, and on items at or under the limit it follows
the 12-entry rule table exactly. -/
theorem fuse_rule_table (w : ℚ) :
    (w > 50 → ∀ (m : Bool) (r : Label), fuse w m r 50 = Label.Other) ∧
    (w ≤ 50 →
      fuse w false Label.Can 50 = Label.Other ∧
      fuse w true Label.Plastic 50 = Label.Can ∧
      fuse w true Label.Other 50 = Label.Can ∧
      fuse w true Label.Can 50 = Label.Can ∧
      fuse w false Label.Plastic 50 = Label.Plastic ∧
      fuse w false Label.Other 50 = Label.Other) := by
  constructor
  · intro hw m r
    simp [fuse, hw]
  · intro hw
    have hng : ¬ (w > 50) := not_lt.mpr hw
    refine ⟨?_, ?_, ?_, ?_, ?_, ?_⟩ <;> simp [fuse, hng]

/-- Witness for C1: the rule table evaluated at the concrete weights
10 g (under the limit) and 60 g (over the limit). -/
theorem fuse_rule_table_witness :
    fuse 10 false Label.Can 50 = Label.Other ∧
    fuse 10 true Label.Plastic 50 = Label.Can ∧
    fuse 60 true Label.Plastic 50 = Label.Other := by
  refine ⟨?_, ?_, ?_⟩
  · exact ((fuse_rule_table 10).2 (by norm_num)).1
  · exact ((fuse_rule_table 10).2 (by norm_num)).2.1
  · exact (fuse_rule_table 60).1 (by norm_num) true Label.Plastic

/-- C5 counterexample: when the measurement raises an exception (rather
than timing out), `get_bin_level` returns a reading whose `error` flag is
NOT set to true — the key is absent from the returned dict — so the claim
that every measurement exception yields `error = true` is false. -/
theorem get_bin_level_fault_no_error_flag :
    (get_bin_level EchoOutcome.fault).error ≠ some true := by
  simp [get_bin_level]

/-- C5 amended: the bin-level measurement is total (never raises): a
timeout on either echo edge returns percent 0, is_full false with the
error flag set to true, while any other measurement exception fails open
to percent 0, is_full false with no error flag at all. -/
theorem get_bin_level_fail_open :
    get_bin_level EchoOutcome.riseTimeout = ⟨0, false, some true⟩ ∧
    get_bin_level EchoOutcome.fallTimeout = ⟨0, false, some true⟩ ∧
    get_bin_level EchoOutcome.fault = ⟨0, false, none⟩ := by
  refine ⟨rfl, rfl, rfl⟩

/-- C6: for every measured echo duration — including negative timings and
durations whose distance exceeds the bin height — a successful measurement
reports an integer percent within [0, 100], and is_full holds exactly when
the fill percentage reaches the configured threshold (80). -/
theorem get_bin_level_percent_in_range (d : ℚ) :
    0 ≤ (get_bin_level (EchoOutcome.echo d)).percent ∧
    (get_bin_level (EchoOutcome.echo d)).percent ≤ 100 ∧
    ((get_bin_level (EchoOutcome.echo d)).is_full = true ↔
      BIN_FULL_THRESHOLD ≤ fillPercent d) := by
  have h0 := fillPercent_nonneg d
  have h100 := fillPercent_le_100 d
  refine ⟨?_, ?_, ?_⟩
  · simp only [get_bin_level, pyInt, if_pos h0]
    exact Int.floor_nonneg.mpr h0
  · simp only [get_bin_level, pyInt, if_pos h0]
    calc ⌊fillPercent d⌋ ≤ ⌊(100:ℚ)⌋ := Int.floor_le_floor h100
    _ = 100 := by norm_num
  · simp [get_bin_level]

/-- C7: `run_motor_sequence` is a no-op when the label is Other or the
servo driver is unavailable: the command trace is empty, so no servo move
and no timed wait is issued, and a scan fused to Other never actuates. -/
theorem run_motor_sequence_noop (k : Bool) (l : String) :
    run_motor_sequence "Other" k = [] ∧ run_motor_sequence l false = [] := by
  constructor
  · simp [run_motor_sequence]
  · simp [run_motor_sequence]

/-- C10: the weight read is total and never negative: any reading at or
below 0.5 g is reported as exactly 0, and a missing or faulting sensor
also yields 0. -/
theorem get_weight_fail_open :
    (∀ o : WeightOutcome, 0 ≤ get_weight o) ∧
    (∀ v : ℚ, v ≤ 0.5 → get_weight (WeightOutcome.reading v) = 0) ∧
    get_weight WeightOutcome.noSensor = 0 ∧
    get_weight WeightOutcome.fault = 0 := by
  refine ⟨?_, ?_, rfl, rfl⟩
  · intro o
    cases o with
    | noSensor => simp [get_weight]
    | fault => simp [get_weight]
    | reading v =>
        simp only [get_weight]
        split
        · linarith [show (0.5:ℚ) < v by assumption]
        · exact le_refl 0
  · intro v hv
    simp only [get_weight, if_neg (not_lt.mpr hv)]

/-- C2: when the latest BinReading reports the bin full, the richer
variant's start is refused with no state change at all: the session record
is returned untouched (status, counters, transaction identifier, claim
secret) and no effect — camera start, tare or cloud call — is issued. -/
theorem session_start_refused_when_full (bin : BinReading) (cloud : CloudStart)
    (lt ls : String) (s : Session) (h : bin.is_full = true) :
    session_start bin cloud lt ls s = (s, false, []) := by
  simp [session_start, h]

/-- Witness for C2: a full bin reading refuses a concrete IDLE session. -/
theorem session_start_refused_when_full_witness :
    session_start ⟨90, true, none⟩ CloudStart.unreachable "local-txn" "local-sec"
        ⟨"IDLE", 0, 0, 0, 0, "none yet", 0, none, none⟩ =
      (⟨"IDLE", 0, 0, 0, 0, "none yet", 0, none, none⟩, false, []) :=
  session_start_refused_when_full _ _ _ _ _ rfl

/-- C3: when the cloud notify-start call fails, the richer variant's start
still succeeds locally: the session transitions to RUNNING with the
locally generated fallback transaction identifier and claim secret
installed, rather than reporting failure and staying IDLE. -/
theorem session_start_offline_fallback (bin : BinReading) (lt ls : String)
    (s : Session) (h : bin.is_full = false) :
    (session_start bin CloudStart.unreachable lt ls s).2.1 = true ∧
    (session_start bin CloudStart.unreachable lt ls s).1.status = "RUNNING" ∧
    (session_start bin CloudStart.unreachable lt ls s).1.transaction_id = some lt ∧
    (session_start bin CloudStart.unreachable lt ls s).1.claim_secret = some ls := by
  simp [session_start, h]

/-- Witness for C3: an unreachable cloud still starts a concrete session,
installing the fallback identifiers. -/
theorem session_start_offline_fallback_witness :
    (session_start ⟨10, false, none⟩ CloudStart.unreachable "local-txn" "local-sec"
        ⟨"IDLE", 0, 0, 0, 0, "none yet", 0, none, none⟩).1.status = "RUNNING" ∧
    (session_start ⟨10, false, none⟩ CloudStart.unreachable "local-txn" "local-sec"
        ⟨"IDLE", 0, 0, 0, 0, "none yet", 0, none, none⟩).1.transaction_id =
      some "local-txn" := by
  have h := session_start_offline_fallback ⟨10, false, none⟩ "local-txn" "local-sec"
    ⟨"IDLE", 0, 0, 0, 0, "none yet", 0, none, none⟩ rfl
  exact ⟨h.2.1, h.2.2.1⟩

/-- C4 counterexample: `predict` on an absent frame (with the model
loaded) returns the string "Error", which is none of Plastic, Can, Other —
so the claim that every predict result lies in the closed three-label set,
with absent frames mapped to Other, is false. -/
theorem predict_absent_frame_outside_label_set :
    predict true none (fun _ => InferResult.exn) = "Error" ∧
    predict true none (fun _ => InferResult.exn) ≠ "Plastic" ∧
    predict true none (fun _ => InferResult.exn) ≠ "Can" ∧
    predict true none (fun _ => InferResult.exn) ≠ "Other" := by
  refine ⟨rfl, by decide, by decide, by decide⟩

/-- C4 amended: `predict` always returns one of Plastic, Can, Other or the
sentinel "Error"; it returns "Error" exactly when the model is not loaded
or the frame is absent, and an exception during preprocessing or inference
(with a frame present and the model loaded) yields Other. -/
theorem predict_label_range (loaded : Bool) (frame : Option Frame)
    (infer : Frame → InferResult) :
    (predict loaded frame infer = "Plastic" ∨ predict loaded frame infer = "Can" ∨
     predict loaded frame infer = "Other" ∨ predict loaded frame infer = "Error") ∧
    (predict loaded frame infer = "Error" ↔ (loaded = false ∨ frame = none)) ∧
    (∀ f, frame = some f → loaded = true → infer f = InferResult.exn →
      predict loaded frame infer = "Other") := by
  by_cases hc : loaded = false ∨ frame = none
  · have he : predict loaded frame infer = "Error" := by
      simp only [predict, if_pos hc]
    refine ⟨Or.inr (Or.inr (Or.inr he)), ⟨fun _ => hc, fun _ => he⟩, ?_⟩
    intro f hf hl _
    rcases hc with h | h
    · rw [hl] at h; exact absurd h (by decide)
    · rw [hf] at h; exact (Option.some_ne_none f h).elim
  · obtain ⟨hl, hf⟩ := not_or.mp hc
    obtain ⟨f, hfe⟩ := Option.ne_none_iff_exists'.mp hf
    subst hfe
    have hstep : predict loaded (some f) infer =
        match infer f with
        | .exn => "Other"
        | .ok probs =>
            if argmax probs = 0 then "Can"
            else if argmax probs = 2 then "Plastic"
            else "Other" := by
      simp only [predict, if_neg hc]
    cases hi : infer f with
    | exn =>
        rw [hi] at hstep
        refine ⟨Or.inr (Or.inr (Or.inl hstep)), ⟨?_, ?_⟩, ?_⟩
        · intro h; rw [hstep] at h; exact absurd h (by decide)
        · intro h; exact absurd h hc
        · intro g hg _ _
          cases hg
          exact hstep
    | ok probs =>
        rw [hi] at hstep
        have hmem : predict loaded (some f) infer = "Can" ∨
            predict loaded (some f) infer = "Plastic" ∨
            predict loaded (some f) infer = "Other" := by
          rw [hstep]
          by_cases h0 : argmax probs = 0
          · simp [h0]
          · by_cases h2 : argmax probs = 2
            · simp [h0, h2]
            · simp [h0, h2]
        refine ⟨?_, ⟨?_, ?_⟩, ?_⟩
        · rcases hmem with h | h | h
          · exact Or.inr (Or.inl h)
          · exact Or.inl h
          · exact Or.inr (Or.inr (Or.inl h))
        · intro h
          rcases hmem with hm | hm | hm <;> rw [hm] at h <;> exact absurd h (by decide)
        · intro h; exact absurd h hc
        · intro g hg _ hx
          cases hg
          rw [hi] at hx
          exact absurd hx (by simp)

/-- Witness for C4 amended: an inference exception on a present frame with
a loaded model yields Other. -/
theorem predict_label_range_witness :
    predict true (some ⟨[]⟩) (fun _ => InferResult.exn) = "Other" :=
  (predict_label_range true (some ⟨[]⟩) (fun _ => InferResult.exn)).2.2
    ⟨[]⟩ rfl rfl rfl

/-- C8: while the session is RUNNING, a scan finding no frame in the
latest-frame slot aborts with the "No frame" failure and returns the
state bit-for-bit unchanged: no counter, last_item or any other field is
mutated. -/
theorem app_scan_no_frame_aborts (pred : Except String String) (s : AppState)
    (hrun : s.status = "RUNNING") (hfr : s.latest_frame = none) :
    app_scan pred s = (s, Except.error "No frame") := by
  simp [app_scan, hrun, hfr]

/-- Witness for C8: a concrete RUNNING state with an empty frame slot is
returned unchanged by scan. -/
theorem app_scan_no_frame_aborts_witness :
    app_scan (Except.ok "Plastic")
        ⟨"RUNNING", some "t", some "c", 1, 2, "Can", true, some 0, none⟩ =
      (⟨"RUNNING", some "t", some "c", 1, 2, "Can", true, some 0, none⟩,
       Except.error "No frame") :=
  app_scan_no_frame_aborts _ _ rfl rfl

/-- C9: camera start is idempotent and a second session start while
RUNNING does not double-initialize the camera.  (1) CameraManager's
start_camera on an already-running state with a held device is a no-op
returning True with no device probe and no second loop; (2) app.py's
start_camera is likewise a no-op when the running flag is set; (3) a
second app.py start while RUNNING with the camera running issues no
device-open or loop-spawn effect (only the cloud post), leaves the camera
state untouched, and stores exactly the transaction identifier the cloud
returned for that call — no identifier is duplicated locally. -/
theorem start_camera_idempotent :
    (∀ (avail : ℤ → Bool) (s : CamState), s.running = true → s.cap.isSome = true →
      cm_start_camera avail s = (true, s, [])) ∧
    (∀ (avail : ℕ → Bool) (s : AppState), s.camera_running = true →
      start_camera avail s = (s, [])) ∧
    (∀ (avail : ℕ → Bool) (s : AppState) (txn sec : String),
      s.camera_running = true → s.status = "RUNNING" →
      (app_start avail (CloudResp.response true txn sec) s).2.2 =
        [AppEffect.cloudPost] ∧
      (app_start avail (CloudResp.response true txn sec) s).1.camera_running = true ∧
      (app_start avail (CloudResp.response true txn sec) s).1.global_cap =
        s.global_cap ∧
      (app_start avail (CloudResp.response true txn sec) s).1.transaction_id =
        some txn) := by
  refine ⟨?_, ?_, ?_⟩
  · intro avail s h1 h2
    simp [cm_start_camera, h1, h2]
  · intro avail s h
    simp [start_camera, h]
  · intro avail s txn sec hcam _
    simp [app_start, start_camera, hcam]

/-- Witness for C9: a running camera state is left untouched, and a second
start of a concrete RUNNING session stores the fresh cloud identifier. -/
theorem start_camera_idempotent_witness :
    cm_start_camera (fun _ => false) ⟨true, some 0, none⟩ =
      (true, ⟨true, some 0, none⟩, []) ∧
    (app_start (fun _ => false) (CloudResp.response true "txn2" "sec2")
        ⟨"RUNNING", some "txn1", some "sec1", 2, 3, "Can", true, some 0,
         none⟩).1.transaction_id = some "txn2" :=
  ⟨start_camera_idempotent.1 (fun _ => false) ⟨true, some 0, none⟩ rfl rfl,
   (start_camera_idempotent.2.2 (fun _ => false)
      ⟨"RUNNING", some "txn1", some "sec1", 2, 3, "Can", true, some 0, none⟩
      "txn2" "sec2" rfl rfl).2.2.2⟩

/-- Witness for C10: the weight read evaluated at a positive reading of
3 g and at a drift reading of 1/4 g (at most 0.5 g). -/
theorem get_weight_fail_open_witness :
    0 ≤ get_weight (WeightOutcome.reading 3) ∧
    get_weight (WeightOutcome.reading (1/4)) = 0 :=
  ⟨get_weight_fail_open.1 (WeightOutcome.reading 3),
   get_weight_fail_open.2.1 (1/4) (by norm_num)⟩

end Kiosk
